import Mathlib

/-!
Verification of the polydictions monitoring pipeline.

Shallow embedding of the core components of the repository:
`usage_billing.py` (the billing ledger), `agent.py` (the per-event
monitor: pre-filter, priority-node matcher, tweet-ingestion state
machine, daily-fee dispatch, refinement cycle, stop), and
`grok_engine.py` (the response-parsing contract of the Reasoning
Client).

Modelling conventions:
- Monetary amounts are rationals (the Python code uses floats; every
  amount appearing in the claims is an exact decimal whose order
  comparisons coincide with the float computation).
- Timestamps are integers counting seconds; the 24-hour check
  `now - last_cycle < timedelta(hours=24)` becomes `now - last < 86400`.
- Text is `List Char`; Python `str.lower`, `str.lstrip('@')`,
  substring containment, `str.strip()` and the fenced-code-block
  unwrapping are embedded as executable functions on `List Char`.
- External effects (funds-transfer backend, the Grok HTTP call, the
  JSON parser) enter as explicit oracle arguments.
- Python runtime errors that the source code can raise (awaiting the
  `bool` returned by the synchronous `remove_subscriber`, calling
  `.discard` on a `list`, using a `dict` as a dictionary key) are
  embedded as explicit error outcomes.
-/

attribute [local semireducible] Rat.add Rat.sub Rat.mul Rat.inv

namespace Polydictions

/-- Characters of a piece of Python text. -/
abbrev Str := List Char

/-! ## Billing ledger (`usage_billing.py`) -/

/-- `GROK_COST_PER_CALL = 0.01` (`usage_billing.py` line 22). -/
def GROK_COST_PER_CALL : ℚ := 1 / 100

/-- `TWITTER_API_DAILY_FEE = 2.0` (`usage_billing.py` line 23). -/
def TWITTER_API_DAILY_FEE : ℚ := 2

/-- The per-`(user, event)` usage record kept in `usage_data`
(`UsageBilling.init_event_tracking`). -/
structure EventUsage where
  started_at : ℤ
  last_billing_cycle : ℤ
  calls_analyze_tweet : ℕ
  calls_synthesize_digest : ℕ
  calls_refine_ruleset : ℕ
  total_grok_calls : ℕ
  total_grok_cost : ℚ
  twitter_api_days : ℕ
  twitter_api_cost : ℚ
  total_cost : ℚ
  last_charge : ℤ
  deriving DecidableEq, Repr

/-- Billing state for one `(user, event)` pair: the user's cached
balance (`payment_system.user_balances[user_id]`) and the usage record
(`none` when `usage_data` has no entry for the pair). -/
structure BillingState where
  balance : ℚ
  usage : Option EventUsage
  deriving DecidableEq, Repr

/-- The `call_type` string passed to `record_grok_call`.  The keys of
the `grok_calls` counter dict are the first three; the priority path of
`_handle_tweet` passes `"analyze_tweet_priority"`, which is not a key,
so only the totals are incremented for it. -/
inductive CallType
  | analyzeTweet
  | synthesizeDigest
  | refineRuleset
  | analyzeTweetPriority
  deriving DecidableEq, Repr

/-- `UsageBilling.can_afford_grok_call`: true iff
`balance ≥ GROK_COST_PER_CALL + TWITTER_API_DAILY_FEE`. -/
def can_afford_grok_call (balance : ℚ) : Bool :=
  !(balance < GROK_COST_PER_CALL + TWITTER_API_DAILY_FEE)

/-- Result dict of `record_grok_call`.  The Python dict carries the
`should_pause` key only in the affordability-failure branch; callers
read it with `.get`, so the missing key is modelled as `false`. -/
structure RecordResult where
  success : Bool
  balance : ℚ
  should_pause : Bool
  deriving DecidableEq, Repr

/-- Increment the per-type counter of `event_data["grok_calls"]`:
`if call_type in event_data["grok_calls"]` — `analyze_tweet_priority`
is not a key, so no per-type counter moves for it. -/
def bumpCallCounter (u : EventUsage) : CallType → EventUsage
  | .analyzeTweet => { u with calls_analyze_tweet := u.calls_analyze_tweet + 1 }
  | .synthesizeDigest => { u with calls_synthesize_digest := u.calls_synthesize_digest + 1 }
  | .refineRuleset => { u with calls_refine_ruleset := u.calls_refine_ruleset + 1 }
  | .analyzeTweetPriority => u

/-- `UsageBilling.record_grok_call` (`usage_billing.py` lines 111-165):
checks affordability before recording the charge; on success increments
the usage counters and debits `GROK_COST_PER_CALL` from the cached
balance.  Returns the result dict and the new billing state. -/
def record_grok_call (s : BillingState) (ct : CallType) : RecordResult × BillingState :=
  if !can_afford_grok_call s.balance then
    ({ success := false, balance := s.balance, should_pause := true }, s)
  else
    match s.usage with
    | none => ({ success := false, balance := 0, should_pause := false }, s)
    | some u =>
        let u' := bumpCallCounter u ct
        let u'' := { u' with
          total_grok_calls := u'.total_grok_calls + 1
          total_grok_cost := u'.total_grok_cost + GROK_COST_PER_CALL
          total_cost := u'.total_cost + GROK_COST_PER_CALL }
        let nb := s.balance - GROK_COST_PER_CALL
        ({ success := true, balance := nb, should_pause := false },
         { balance := nb, usage := some u'' })

/-- The distinct `message` strings of `check_and_charge_daily_fee`'s
result dicts, modelled as a tag (the concrete strings differ pairwise). -/
inductive DailyMsg
  | noTracking
  | notYet24h
  | insufficientBalance
  | chargedOk
  | transferFailed
  deriving DecidableEq, Repr

/-- The two tiers of the low-balance warning string attached by
`check_and_charge_daily_fee`: `new_balance < 5.0` → critical
("LOW BALANCE WARNING"), else `new_balance < 10.0` → informational
("Balance Notice"). -/
inductive Warn
  | critical
  | notice
  deriving DecidableEq, Repr

/-- Result dict of `check_and_charge_daily_fee`.  Keys that a branch
does not set (`should_stop`, `new_balance`, `warning`, `signature`) are
read by callers with `.get`, so they are modelled with defaults
(`false` / `none`). -/
structure DailyFeeResult where
  charged : Bool
  amount : ℚ
  msg : DailyMsg
  should_stop : Bool
  new_balance : Option ℚ
  warning : Option Warn
  has_signature : Bool
  deriving DecidableEq, Repr

/-- `UsageBilling.check_and_charge_daily_fee` (`usage_billing.py` lines
167-247).  `now` is the current time in seconds; `transfer_ok` is the
outcome of the external `transfer_usdc_to_platform` call (the
funds-transfer backend, an oracle of the model). -/
def check_and_charge_daily_fee (now : ℤ) (transfer_ok : Bool)
    (s : BillingState) : DailyFeeResult × BillingState :=
  match s.usage with
  | none =>
      ({ charged := false, amount := 0, msg := .noTracking, should_stop := false,
         new_balance := none, warning := none, has_signature := false }, s)
  | some u =>
      if now - u.last_billing_cycle < 86400 then
        ({ charged := false, amount := 0, msg := .notYet24h, should_stop := false,
           new_balance := none, warning := none, has_signature := false }, s)
      else if s.balance < TWITTER_API_DAILY_FEE then
        ({ charged := false, amount := 0, msg := .insufficientBalance, should_stop := true,
           new_balance := none, warning := none, has_signature := false }, s)
      else if transfer_ok then
        let nb := s.balance - TWITTER_API_DAILY_FEE
        let u' := { u with
          last_billing_cycle := now
          twitter_api_days := u.twitter_api_days + 1
          twitter_api_cost := u.twitter_api_cost + TWITTER_API_DAILY_FEE
          total_cost := u.total_cost + TWITTER_API_DAILY_FEE
          last_charge := now }
        let warning : Option Warn :=
          if nb < 5 then some .critical
          else if nb < 10 then some .notice
          else none
        ({ charged := true, amount := TWITTER_API_DAILY_FEE, msg := .chargedOk,
           should_stop := false, new_balance := some nb, warning := warning,
           has_signature := true },
         { balance := nb, usage := some u' })
      else
        ({ charged := false, amount := 0, msg := .transferFailed, should_stop := true,
           new_balance := none, warning := none, has_signature := false }, s)

/-- One charge attempt against a subscriber's ledger: either a Grok
per-call charge or a daily-fee check (with its observation time and the
transfer backend's outcome). -/
inductive ChargeOp
  | grokCall (ct : CallType)
  | dailyFee (now : ℤ) (transfer_ok : Bool)
  deriving DecidableEq, Repr

/-- Apply one charge attempt; returns the new state together with
whether the charge succeeded (a debit took place). -/
def applyChargeOp (s : BillingState) : ChargeOp → BillingState × Bool
  | .grokCall ct =>
      let (r, s') := record_grok_call s ct
      (s', r.success)
  | .dailyFee now ok =>
      let (r, s') := check_and_charge_daily_fee now ok s
      (s', r.charged)

/-- The cost of one charge attempt when it succeeds. -/
def chargeCost : ChargeOp → ℚ
  | .grokCall _ => GROK_COST_PER_CALL
  | .dailyFee _ _ => TWITTER_API_DAILY_FEE

/-- Run a sequence of charge attempts; returns the final state and the
total amount successfully debited. -/
def runCharges (s : BillingState) : List ChargeOp → BillingState × ℚ
  | [] => (s, 0)
  | op :: ops =>
      let (s', ok) := applyChargeOp s op
      let (sf, tot) := runCharges s' ops
      (sf, (if ok then chargeCost op else 0) + tot)

/-- Numbers of successful per-call charges and successful daily-fee
charges in a run. -/
def countSuccessfulCharges (s : BillingState) : List ChargeOp → ℕ × ℕ
  | [] => (0, 0)
  | op :: ops =>
      let (s', ok) := applyChargeOp s op
      let (g, d) := countSuccessfulCharges s' ops
      match op with
      | .grokCall _ => ((if ok then 1 else 0) + g, d)
      | .dailyFee _ _ => (g, (if ok then 1 else 0) + d)

/-! ## Text helpers (Python string operations used by `agent.py` and
`grok_engine.py`) -/

/-- The backtick character (used by the fenced-code-block markers). -/
def btick : Char := Char.ofNat 96

/-- `str.lower()`, character-wise. -/
def pyLower (s : Str) : Str := s.map Char.toLower

/-- `str.lstrip('@')`. -/
def lstripAts (s : Str) : Str := s.dropWhile (· = '@')

/-- Python substring containment `sub in s`. -/
def hasSub (sub : Str) : Str → Bool
  | [] => sub.isEmpty
  | c :: rest => sub.isPrefixOf (c :: rest) || hasSub sub rest

/-- The characters before the first occurrence of `sub` (the whole
string when `sub` does not occur). -/
def takeUntilSub (sub : Str) : Str → Str
  | [] => []
  | c :: rest => if sub.isPrefixOf (c :: rest) then [] else c :: takeUntilSub sub rest

/-- `str.strip()`: drop whitespace from both ends. -/
def pyStrip (s : Str) : Str :=
  ((s.dropWhile Char.isWhitespace).reverse.dropWhile Char.isWhitespace).reverse

/-- `any(kw in text for kw in kws)`. -/
def containsAny (text : Str) (kws : List Str) : Bool :=
  kws.any fun kw => hasSub kw text

/-! ## Tweets, rulesets and the pre-filter (`agent.py`) -/

/-- The `author` object of a TwitterAPI.io tweet, with the fields the
monitor reads (`userName`, `isAutomated`, `followers`,
`isBlueVerified`); `.get` defaults apply when absent. -/
structure Author where
  userName : Str
  isAutomated : Bool
  followers : ℕ
  isBlueVerified : Bool
  deriving DecidableEq, Repr

/-- An incoming tweet, with the fields the monitor reads.
`retweeted_tweet` models truthiness of the `retweeted_tweet` key;
`isReply` models `tweet.get('isReply', False)`. -/
structure Tweet where
  author : Author
  text : Str
  likeCount : ℕ
  retweetCount : ℕ
  replyCount : ℕ
  retweeted_tweet : Bool
  isReply : Bool
  deriving DecidableEq, Repr

/-- One entry of the ruleset's `priority_nodes` list
(`_check_priority_node` distinguishes four `type` tags). -/
inductive PriorityNode
  | account_specific (account : Str) (keywords : List Str) (reason : Str)
  | account_any (account : Str) (reason : Str)
  | keyword_critical (keywords : List Str) (min_followers : ℕ) (reason : Str)
  | breaking_news (keywords : List Str) (verified_only : Bool) (reason : Str)
  deriving DecidableEq, Repr

/-- The parts of the Grok-produced ruleset consumed mechanically by the
monitor: the monitored accounts, the priority nodes, and the two
filter thresholds (`filters.get('relevance_threshold', 0.7)` /
`filters.get('credibility_threshold', 0.6)` — the fields hold the
effective values). -/
structure Ruleset where
  accounts : List Str
  priority_nodes : List PriorityNode
  relevance_threshold : ℚ
  credibility_threshold : ℚ
  deriving DecidableEq, Repr

/-- `AgentManager._should_skip_tweet` (`agent.py` lines 585-625).  The
`agent` argument of the source is unused by the body, so the embedded
function takes only the tweet. -/
def _should_skip_tweet (t : Tweet) : Bool :=
  if t.author.isAutomated then true
  else if t.author.followers < 100 then true
  else if t.likeCount + t.retweetCount + t.replyCount = 0 ∧ t.author.followers < 10000 then
    false
  else if t.retweeted_tweet ∧ t.author.followers < 50000 then true
  else if t.isReply ∧ ¬t.author.isBlueVerified ∧ t.author.followers < 10000 then true
  else false

/-- Verdict of one heuristic of the spec's ordered rule list: `skip`
(return skip), `keep` (return do-not-skip), or no match (fall through
to the next rule). -/
inductive RuleVerdict
  | skip
  | keep
  deriving DecidableEq, Repr

/-- First-match-wins evaluation of an ordered heuristic list; a tweet
matching no rule is not skipped (the spec's rule 6). -/
def firstMatch : List (Tweet → Option RuleVerdict) → Tweet → Bool
  | [], _ => false
  | r :: rs, t =>
      match r t with
      | some .skip => true
      | some .keep => false
      | none => firstMatch rs t

/-- Modelled from the spec's words (§4.1), rule 1: automated source → skip. -/
def specRuleAutomated (t : Tweet) : Option RuleVerdict :=
  if t.author.isAutomated then some .skip else none

/-- Modelled from the spec's words (§4.1), rule 2: follower count < 100 → skip. -/
def specRuleLowFollowers (t : Tweet) : Option RuleVerdict :=
  if t.author.followers < 100 then some .skip else none

/-- Modelled from the spec's words (§4.1), rule 3: zero engagement and
followers < 10,000 → do not skip (first match wins: later rules are not
consulted). -/
def specRuleZeroEngagement (t : Tweet) : Option RuleVerdict :=
  if t.likeCount + t.retweetCount + t.replyCount = 0 ∧ t.author.followers < 10000 then
    some .keep
  else none

/-- Modelled from the spec's words (§4.1), rule 4: reshare with
followers < 50,000 → skip. -/
def specRuleReshare (t : Tweet) : Option RuleVerdict :=
  if t.retweeted_tweet ∧ t.author.followers < 50000 then some .skip else none

/-- Modelled from the spec's words (§4.1), rule 5: reply from an
unverified author with followers < 10,000 → skip. -/
def specRuleReply (t : Tweet) : Option RuleVerdict :=
  if t.isReply ∧ ¬t.author.isBlueVerified ∧ t.author.followers < 10000 then
    some .skip
  else none

/-- Modelled from the spec's words (§4.1): the spec's `shouldSkip`,
evaluated as an ordered rule list with first match winning. -/
def shouldSkipSpec (t : Tweet) : Bool :=
  firstMatch
    [specRuleAutomated, specRuleLowFollowers, specRuleZeroEngagement,
     specRuleReshare, specRuleReply] t

/-! ## Priority-node matcher (`AgentManager._check_priority_node`) -/

/-- Iterate the `priority_nodes` list in order, first match wins
(`agent.py` lines 529-583).  Matching is case-insensitive with leading
`@` stripped from handles; keyword matching is substring containment. -/
def matchNodes (author_username : Str) (text : Str) (followers : ℕ)
    (is_verified : Bool) : List PriorityNode → Bool × Str
  | [] => (false, [])
  | n :: rest =>
      match n with
      | .account_specific acc kws reason =>
          if author_username = lstripAts (pyLower acc) ∧
             containsAny text (kws.map pyLower) then (true, reason)
          else matchNodes author_username text followers is_verified rest
      | .account_any acc reason =>
          if author_username = lstripAts (pyLower acc) then (true, reason)
          else matchNodes author_username text followers is_verified rest
      | .keyword_critical kws minf reason =>
          if minf ≤ followers ∧ containsAny text (kws.map pyLower) then (true, reason)
          else matchNodes author_username text followers is_verified rest
      | .breaking_news kws vOnly reason =>
          if (¬vOnly ∨ is_verified) ∧ containsAny text (kws.map pyLower) then (true, reason)
          else matchNodes author_username text followers is_verified rest

/-- `AgentManager._check_priority_node`: lower-case the author handle
and tweet text, strip the handle's leading `@`, then scan the nodes. -/
def _check_priority_node (t : Tweet) (nodes : List PriorityNode) : Bool × Str :=
  matchNodes (lstripAts (pyLower t.author.userName)) (pyLower t.text)
    t.author.followers t.author.isBlueVerified nodes

/-! ## Monitor state and the tweet-ingestion state machine
(`AgentManager._handle_tweet`) -/

/-- The classifier output returned by `grok_engine.analyze_tweet`, with
the fields `_handle_tweet` reads (`.get` defaults: `relevant` → false,
scores → 0). -/
structure Analysis where
  relevant : Bool
  relevance_score : ℚ
  credibility_score : ℚ
  sentiment : Str
  priority : Str
  deriving DecidableEq, Repr

/-- A stored Intelligence Item: the raw tweet merged with the analysis
(`{**tweet, **analysis, ...}`), plus the priority-node marker fields. -/
structure Item where
  tweet : Tweet
  analysis : Analysis
  is_priority_node : Bool
  priority_node_reason : Option Str
  deriving DecidableEq, Repr

/-- `EventAgent.status`. -/
inductive Status
  | setup
  | active
  | paused
  | stopped
  deriving DecidableEq, Repr

/-- Rolling per-event metrics (`performance_metrics[event_slug]`), the
fields the ingestion and refinement paths read and write.  (The
`account_performance` sub-map is not represented: the source crashes
before writing to it — see `handle_tweet`.) -/
structure Metrics where
  total_tweets : ℕ
  relevant_tweets : ℕ
  high_priority_tweets : ℕ
  avg_relevance_score : ℚ
  avg_credibility_score : ℚ
  deriving DecidableEq, Repr

/-- `AgentManager._init_metrics`: all counters and averages restart at
zero. -/
def _init_metrics : Metrics :=
  { total_tweets := 0, relevant_tweets := 0, high_priority_tweets := 0,
    avg_relevance_score := 0, avg_credibility_score := 0 }

/-- The per-event monitor state (`EventAgent` plus the billing maps the
manager consults for its subscribers).  `subscribers` is the
`List[int]` field of `EventAgent`; `balances`/`tracked` give each
subscriber's cached wallet balance and whether `usage_data` has an
entry for the pair (subscriber, this event). -/
structure MonitorState where
  status : Status
  ruleset : Ruleset
  subscribers : List ℤ
  balances : ℤ → ℚ
  tracked : ℤ → Bool
  intelligence : List Item
  metrics : Metrics
  last_refinement : Option ℤ

/-- Python runtime errors raised by the source paths modelled here. -/
inductive PyErr
  /-- `await` applied to the `bool` returned by the synchronous
  `remove_subscriber` (inside `_notify_low_balance_and_pause`). -/
  | typeErrorAwaitBool
  /-- `tweet['author']` (a dict) used as a dictionary key in the
  `account_performance` metrics update. -/
  | typeErrorUnhashable
  deriving DecidableEq, Repr

/-- Externally observable effects of one ingestion / scheduler step. -/
structure Effects where
  /-- Number of `grok_engine.analyze_tweet` invocations. -/
  grokCalls : ℕ
  /-- Successful per-call debits, in order: (subscriber, call type). -/
  charges : List (ℤ × CallType)
  /-- Subscribers sent the low-balance pause notification, in order. -/
  notified : List ℤ
  /-- Number of immediate deliveries dispatched to subscribers. -/
  delivered : ℕ
  deriving DecidableEq, Repr

/-- No effects yet. -/
def Effects.init : Effects := { grokCalls := 0, charges := [], notified := [], delivered := 0 }

/-- Bridge from the monitor state to the billing ledger for one
subscriber: build the `(user, event)` billing state, run
`record_grok_call`, and write the balance back.  The counters inside
the usage record do not influence `record_grok_call`'s control flow or
balance arithmetic, so a fixed record stands in for them. -/
def placeholderUsage : EventUsage :=
  { started_at := 0, last_billing_cycle := 0, calls_analyze_tweet := 0,
    calls_synthesize_digest := 0, calls_refine_ruleset := 0, total_grok_calls := 0,
    total_grok_cost := 0, twitter_api_days := 1,
    twitter_api_cost := TWITTER_API_DAILY_FEE, total_cost := TWITTER_API_DAILY_FEE,
    last_charge := 0 }

/-- Charge one subscriber for a Grok call via `record_grok_call`;
returns the updated balance map and whether the charge succeeded. -/
def chargeSub (balances : ℤ → ℚ) (tracked : ℤ → Bool) (u : ℤ) (ct : CallType) :
    (ℤ → ℚ) × Bool :=
  let bs : BillingState :=
    { balance := balances u, usage := if tracked u then some placeholderUsage else none }
  let (r, bs') := record_grok_call bs ct
  (fun v => if v = u then bs'.balance else balances v, r.success)

/-- The billing gate of `_handle_tweet` / `_generate_hourly_digest` /
`_refine_rules`: `for subscriber_id in agent.subscribers:` charge each
subscriber; on the first failure, `_notify_low_balance_and_pause` is
awaited — it prints the notification and calls
`self.remove_subscriber(event_slug, user_id)` (which removes the
subscriber from the list), but `remove_subscriber` is a synchronous
function returning `bool`, so the `await` raises
`TypeError: object bool can't be used in 'await' expression` and the
loop aborts (the following `agent.subscribers.discard(...)` — an
`AttributeError` on a `list` — is never reached).  The `l` argument is
the subscriber list being iterated. -/
def gateLoop (ct : CallType) : List ℤ → MonitorState → Effects →
    MonitorState × Effects × Option PyErr
  | [], s, eff => (s, eff, none)
  | u :: rest, s, eff =>
      let (bal', ok) := chargeSub s.balances s.tracked u ct
      let s' := { s with balances := bal' }
      if ok then
        gateLoop ct rest s' { eff with charges := eff.charges ++ [(u, ct)] }
      else
        ({ s' with subscribers := s'.subscribers.erase u },
         { eff with notified := eff.notified ++ [u] },
         some .typeErrorAwaitBool)

/-- How one call of `_handle_tweet` ended. -/
inductive HandleOutcome
  /-- Monitor absent or not active: returned before touching metrics. -/
  | inactive
  /-- Priority path: analysis succeeded, item stored and delivered. -/
  | priorityDelivered
  /-- Priority path: subscriber set empty after the gate, no Grok call. -/
  | noSubscribersPriority
  /-- Pre-filter signalled skip. -/
  | prefiltered
  /-- Non-priority path: subscriber set empty after the gate. -/
  | noSubscribersNormal
  /-- Non-priority path: `analyze_tweet` returned `None`. -/
  | analysisFailed
  /-- Discarded: `analysis.get('relevant', False)` false. -/
  | notRelevant
  /-- Discarded by the relevance threshold. -/
  | relevanceTooLow
  /-- Discarded by the credibility threshold. -/
  | credibilityTooLow
  /-- Item stored and count/average metrics updated, then the
  `account_performance` update raised `TypeError` (the author dict is
  used as a dict key); no persistence, no delivery. -/
  | crashedMetrics
  /-- The billing gate aborted with a Python error. -/
  | gateError (e : PyErr)
  deriving DecidableEq, Repr

/-- The non-priority tail of `_handle_tweet` (`agent.py` lines
426-527): pre-filter, billing gate, Grok classification (`a2` is the
oracle for this call's result), threshold filters, storage, metric
updates, and the `account_performance` crash. -/
def handleNormalPath (a2 : Option Analysis) (t : Tweet) (s : MonitorState)
    (eff : Effects) : MonitorState × Effects × HandleOutcome :=
  if _should_skip_tweet t then (s, eff, .prefiltered)
  else
    match gateLoop .analyzeTweet s.subscribers s eff with
    | (s1, e1, some err) => (s1, e1, .gateError err)
    | (s1, e1, none) =>
        if s1.subscribers = [] then (s1, e1, .noSubscribersNormal)
        else
          let e2 := { e1 with grokCalls := e1.grokCalls + 1 }
          match a2 with
          | none => (s1, e2, .analysisFailed)
          | some a =>
              if ¬a.relevant then (s1, e2, .notRelevant)
              else if a.relevance_score < s1.ruleset.relevance_threshold then
                (s1, e2, .relevanceTooLow)
              else if a.credibility_score < s1.ruleset.credibility_threshold then
                (s1, e2, .credibilityTooLow)
              else
                let item : Item :=
                  { tweet := t, analysis := a, is_priority_node := false,
                    priority_node_reason := none }
                let n : ℕ := s1.metrics.relevant_tweets + 1
                let m := s1.metrics
                let m' :=
                  { m with
                    relevant_tweets := n
                    high_priority_tweets :=
                      if a.priority = ('h' :: 'i' :: 'g' :: 'h' :: []) then
                        m.high_priority_tweets + 1
                      else m.high_priority_tweets
                    avg_relevance_score :=
                      (m.avg_relevance_score * ((n : ℚ) - 1) + a.relevance_score) / (n : ℚ)
                    avg_credibility_score :=
                      (m.avg_credibility_score * ((n : ℚ) - 1) + a.credibility_score) / (n : ℚ) }
                ({ s1 with intelligence := s1.intelligence ++ [item], metrics := m' },
                 e2, .crashedMetrics)

/-- The body of `_handle_tweet` after the activity guard and the
`total_tweets` metric increment (`agent.py` lines 366-527): priority
check, priority path, and fall-through to the non-priority path. -/
def handleTweetActive (a1 a2 : Option Analysis) (s : MonitorState) (t : Tweet) :
    MonitorState × Effects × HandleOutcome :=
  if (_check_priority_node t s.ruleset.priority_nodes).1 then
    match gateLoop .analyzeTweetPriority s.subscribers s Effects.init with
    | (s1, e1, some err) => (s1, e1, .gateError err)
    | (s1, e1, none) =>
        if s1.subscribers = [] then (s1, e1, .noSubscribersPriority)
        else
          let e2 := { e1 with grokCalls := e1.grokCalls + 1 }
          match a1 with
          | some a =>
              let a' := { a with priority := ('h' :: 'i' :: 'g' :: 'h' :: []) }
              let item : Item :=
                { tweet := t, analysis := a', is_priority_node := true,
                  priority_node_reason :=
                    some (_check_priority_node t s.ruleset.priority_nodes).2 }
              let s2 :=
                { s1 with
                  intelligence := s1.intelligence ++ [item]
                  metrics := { s1.metrics with
                    high_priority_tweets := s1.metrics.high_priority_tweets + 1 } }
              (s2, { e2 with delivered := e2.delivered + 1 }, .priorityDelivered)
          | none => handleNormalPath a2 t s1 e2
  else
    handleNormalPath a2 t s Effects.init

/-- `AgentManager._handle_tweet` (`agent.py` lines 345-527).  `a1` and
`a2` are the Reasoning Client oracles for the first (priority-path) and
second (non-priority-path) `analyze_tweet` invocations: `none` models a
Grok failure or unparseable output.  When the priority analysis
returns `None`, execution falls through to the non-priority path. -/
def handle_tweet (a1 a2 : Option Analysis) (s : MonitorState) (t : Tweet) :
    MonitorState × Effects × HandleOutcome :=
  if s.status = .active then
    handleTweetActive a1 a2
      { s with metrics := { s.metrics with total_tweets := s.metrics.total_tweets + 1 } } t
  else (s, Effects.init, .inactive)

/-! ## Reasoning Client response parsing (`grok_engine.py`) -/

/-- The fenced-code-block marker. -/
def fenceMark : Str := [btick, btick, btick]

/-- The `"json"` language tag. -/
def jsonTag : Str := ['j', 's', 'o', 'n']

/-- The markdown unwrapping shared by the Grok parse sites
(`grok_engine.py`, e.g. lines 332-335):
`if response.startswith("```"): response = response.split("```")[1];
if response.startswith("json"): response = response[4:]`.
For a string starting with the marker, `split("```")[1]` is exactly
the text after the first marker up to the next occurrence (or the rest
when none follows), i.e. `takeUntilSub` after dropping the marker. -/
def stripFence (s : Str) : Str :=
  if fenceMark.isPrefixOf s then
    if jsonTag.isPrefixOf (takeUntilSub fenceMark (s.drop 3)) then
      (takeUntilSub fenceMark (s.drop 3)).drop 4
    else takeUntilSub fenceMark (s.drop 3)
  else s

/-- The shared parse pipeline applied to a Grok response string:
unwrap the fenced code block, then `json.loads(response.strip())`.
`jparse` is the JSON-parsing oracle (`none` models a
`JSONDecodeError`). -/
def parseGrok {α : Type} (jparse : Str → Option α) (response : Str) : Option α :=
  jparse (pyStrip (stripFence response))

/-- A response wrapped in a fenced code block with the `json` language
tag, as produced by the model around a JSON `body`. -/
def wrapFenced (body : Str) : Str :=
  fenceMark ++ jsonTag ++ ('\n' :: body) ++ ('\n' :: fenceMark)

/-- `GrokEngine.analyze_tweet` result handling (`grok_engine.py` lines
327-341): a falsy response (`None` or empty) returns `None`; a parse
failure returns `None`. -/
def analyze_tweet_result (jparse : Str → Option Analysis)
    (response : Option Str) : Option Analysis :=
  match response with
  | none => none
  | some r => if r.isEmpty then none else parseGrok jparse r

/-- `GrokEngine.generate_initial_ruleset` result handling
(`grok_engine.py` lines 206-223): falsy response → `None`; parse
failure → `None`. -/
def generate_initial_ruleset_result (jparse : Str → Option Ruleset)
    (response : Option Str) : Option Ruleset :=
  match response with
  | none => none
  | some r => if r.isEmpty then none else parseGrok jparse r

/-- `GrokEngine.synthesize_hourly_digest` result handling
(`grok_engine.py` lines 380-381): the raw response is returned with no
JSON parsing at all. -/
def synthesize_digest_result (response : Option Str) : Option Str :=
  response

/-- `GrokEngine.refine_ruleset` result handling (`grok_engine.py`
lines 433-448): a falsy response returns the **current** ruleset
("Return unchanged if refinement fails"), and so does a parse failure
— this function never returns `None`. -/
def refine_ruleset_result (jparse : Str → Option Ruleset) (current : Ruleset)
    (response : Option Str) : Option Ruleset :=
  match response with
  | none => some current
  | some r =>
      if r.isEmpty then some current
      else
        match parseGrok jparse r with
        | some rs => some rs
        | none => some current

/-! ## Refinement cycle (`AgentManager._refine_rules`) -/

/-- Feed-source registration effects of a refinement
(`remove_multiple_users_from_monitor` / `add_multiple_users_to_monitor`
call arguments).  Python set differences are modelled as
membership-filtered lists. -/
structure RefineEffects where
  base : Effects
  deregistered : List Str
  registered : List Str
  deriving DecidableEq, Repr

/-- How one call of `_refine_rules` ended. -/
inductive RefineOutcome
  /-- The billing gate aborted with a Python error (caught and logged
  by `_refinement_scheduler`). -/
  | gateError (e : PyErr)
  /-- Subscriber set empty after the gate: refinement skipped. -/
  | noSubscribers
  /-- The `if refined_ruleset:` branch ran and the ruleset (possibly
  identical to the old one) was installed, `last_refinement` recorded
  and metrics reset. -/
  | applied
  deriving DecidableEq, Repr

/-- `AgentManager._refine_rules` (`agent.py` lines 781-850).
`response` is the raw Grok response oracle for `refine_ruleset`
(`none` models an engine failure), `jparse` the JSON oracle, `now` the
current time.  Because `refine_ruleset_result` returns the current
ruleset when refinement fails, the `if refined_ruleset:` guard is
satisfied by any (non-empty) ruleset and the success branch runs:
the ruleset is re-installed, `last_refinement` is set and the metrics
are reset even for a failed refinement. -/
def refine_rules (now : ℤ) (jparse : Str → Option Ruleset) (response : Option Str)
    (s : MonitorState) : MonitorState × RefineEffects × RefineOutcome :=
  match gateLoop .refineRuleset s.subscribers s Effects.init with
  | (s1, e1, some err) =>
      (s1, { base := e1, deregistered := [], registered := [] }, .gateError err)
  | (s1, e1, none) =>
      if s1.subscribers = [] then
        (s1, { base := e1, deregistered := [], registered := [] }, .noSubscribers)
      else
        let e2 := { e1 with grokCalls := e1.grokCalls + 1 }
        match refine_ruleset_result jparse s1.ruleset response with
        | none =>
            -- unreachable: `refine_ruleset` never returns `None`; kept for the
            -- literal `if refined_ruleset:` guard of the source.
            (s1, { base := e2, deregistered := [], registered := [] }, .noSubscribers)
        | some refined =>
            let old_accounts := s1.ruleset.accounts
            let new_accounts := refined.accounts
            let toRemove := old_accounts.filter (fun a => ¬a ∈ new_accounts)
            let toAdd := new_accounts.filter (fun a => ¬a ∈ old_accounts)
            ({ s1 with
                ruleset := refined
                last_refinement := some now
                metrics := _init_metrics },
             { base := e2, deregistered := toRemove, registered := toAdd },
             .applied)

/-! ## Daily-fee scheduler dispatch (`AgentManager._daily_fee_scheduler`) -/

/-- The per-subscriber branch taken by `_daily_fee_scheduler` on the
result of `check_and_charge_daily_fee` (`agent.py` lines 747-764):
`should_stop` → notify low balance and remove the subscriber;
otherwise `charged` → log (and forward any warning); otherwise → log a
failure. -/
inductive FeeAction
  | notifyAndRemove
  | chargedOk (warning : Option Warn)
  | logFailure
  deriving DecidableEq, Repr

/-- The scheduler's dispatch on one daily-fee result. -/
def daily_fee_dispatch (r : DailyFeeResult) : FeeAction :=
  if r.should_stop then .notifyAndRemove
  else if r.charged then .chargedOk r.warning
  else .logFailure

/-! ## Stopping a monitor (`AgentManager.stop_agent`) -/

/-- The state `stop_agent` reads and writes: whether the event is in
`self.agents`, the agent status, its monitored accounts, whether the
shared Twitter client exists, and which of the three scheduled tasks
are present in their dictionaries. -/
structure StopState where
  agentPresent : Bool
  status : Status
  accounts : List Str
  twitterClientSome : Bool
  digestTask : Bool
  refinementTask : Bool
  dailyFeeTask : Bool
  deriving DecidableEq, Repr

/-- External effects of one `stop_agent` call. -/
structure StopEffects where
  /-- Number of `remove_multiple_users_from_monitor` invocations (each
  passes the full monitored-accounts list). -/
  deregCalls : ℕ
  /-- Number of task `.cancel()` invocations. -/
  cancels : ℕ
  /-- Number of `twitter_stream.delete_stream_rule` invocations. -/
  deleteStreamCalls : ℕ
  deriving DecidableEq, Repr

/-- Combine the effects of consecutive calls. -/
def StopEffects.add (a b : StopEffects) : StopEffects :=
  { deregCalls := a.deregCalls + b.deregCalls,
    cancels := a.cancels + b.cancels,
    deleteStreamCalls := a.deleteStreamCalls + b.deleteStreamCalls }

/-- `AgentManager.stop_agent` (`agent.py` lines 894-930).  The agent is
never removed from `self.agents`, so a second call finds it again;
tasks are deleted from their dictionaries after cancellation, so each
is cancelled at most once. -/
def stop_agent (s : StopState) : StopState × StopEffects :=
  if ¬s.agentPresent then (s, { deregCalls := 0, cancels := 0, deleteStreamCalls := 0 })
  else
    let dereg := if s.accounts ≠ [] ∧ s.twitterClientSome then 1 else 0
    let cancels :=
      (if s.digestTask then 1 else 0) + (if s.refinementTask then 1 else 0) +
        (if s.dailyFeeTask then 1 else 0)
    ({ s with
        status := .stopped
        digestTask := false
        refinementTask := false
        dailyFeeTask := false },
     { deregCalls := dereg, cancels := cancels, deleteStreamCalls := 1 })

/-- Two consecutive `stop_agent` calls: final state and accumulated
effects. -/
def stop_agent_twice (s : StopState) : StopState × StopEffects :=
  let (s1, e1) := stop_agent s
  let (s2, e2) := stop_agent s1
  (s2, e1.add e2)

/-! ## Concrete instances used by the scenario theorems -/

/-- The C4 scenario input: an automated source with 50,000 followers
and nonzero engagement. -/
def autoTweet50k : Tweet where
  author :=
    { userName := ('b' :: 'o' :: 't' :: [])
      isAutomated := true
      followers := 50000
      isBlueVerified := true }
  text := ('x' :: [])
  likeCount := 7
  retweetCount := 3
  replyCount := 1
  retweeted_tweet := false
  isReply := false

/-- A concrete ruleset for the C7 refinement counterexample. -/
def rulesetC7 : Ruleset where
  accounts := [('a' :: 'l' :: 'i' :: 'c' :: 'e' :: [])]
  priority_nodes := []
  relevance_threshold := 7/10
  credibility_threshold := 3/5

/-- A concrete running monitor for the C9 counterexample: present in
the registry, one monitored account, shared Twitter client set, all
three scheduled tasks alive. -/
def stopStateC9 : StopState where
  agentPresent := true
  status := .active
  accounts := [('a' :: 'l' :: 'i' :: 'c' :: 'e' :: [])]
  twitterClientSome := true
  digestTask := true
  refinementTask := true
  dailyFeeTask := true

/-- The C3/C10 ruleset: one `keyword_critical` priority node firing on
the word "launch" with no follower floor. -/
def rulesetC3 : Ruleset where
  accounts := [('a' :: 'l' :: 'i' :: 'c' :: 'e' :: [])]
  priority_nodes :=
    [.keyword_critical [('l' :: 'a' :: 'u' :: 'n' :: 'c' :: 'h' :: [])] 0 ('r' :: [])]
  relevance_threshold := 7/10
  credibility_threshold := 3/5

/-- The C3/C10 tweet: matches the priority node ("Launch today") and
passes the pre-filter (5,000 followers, zero engagement). -/
def tweetC3 : Tweet where
  author :=
    { userName := ('A' :: 'l' :: 'i' :: 'c' :: 'e' :: [])
      isAutomated := false
      followers := 5000
      isBlueVerified := false }
  text := ('L' :: 'a' :: 'u' :: 'n' :: 'c' :: 'h' :: ' ' :: 't' :: 'o' :: 'd' :: 'a' :: 'y' :: [])
  likeCount := 0
  retweetCount := 0
  replyCount := 0
  retweeted_tweet := false
  isReply := false

/-- The C3/C10 monitor: active, one well-funded tracked subscriber. -/
def monitorC3 : MonitorState where
  status := .active
  ruleset := rulesetC3
  subscribers := [7]
  balances := fun _ => 100
  tracked := fun _ => true
  intelligence := []
  metrics := _init_metrics
  last_refinement := none

/-- The C3 fallback classification: relevant but with relevance score
0.5, below the ruleset's 0.7 threshold. -/
def analysisC3 : Analysis where
  relevant := true
  relevance_score := 1/2
  credibility_score := 9/10
  sentiment := ('n' :: 'e' :: 'u' :: 't' :: 'r' :: 'a' :: 'l' :: [])
  priority := ('l' :: 'o' :: 'w' :: [])

/-- The C2 monitor: active, no priority nodes, two tracked subscribers
both holding $1.50 — below the $2.01 affordability floor. -/
def monitorC2 : MonitorState where
  status := .active
  ruleset :=
    { accounts := []
      priority_nodes := []
      relevance_threshold := 7/10
      credibility_threshold := 3/5 }
  subscribers := [1, 2]
  balances := fun _ => 3/2
  tracked := fun _ => true
  intelligence := []
  metrics := _init_metrics
  last_refinement := none

/-- The C2 tweet: 200 followers and zero engagement, so the pre-filter
lets it through. -/
def tweetC2 : Tweet where
  author :=
    { userName := ('c' :: 'a' :: 'r' :: 'o' :: 'l' :: [])
      isAutomated := false
      followers := 200
      isBlueVerified := false }
  text := ('h' :: 'i' :: [])
  likeCount := 0
  retweetCount := 0
  replyCount := 0
  retweeted_tweet := false
  isReply := false

/-- The C8 monitor: active with one funded subscriber and six hours of
accumulated non-zero metrics, no refinement recorded yet. -/
def monitorC8 : MonitorState where
  status := .active
  ruleset := rulesetC3
  subscribers := [3]
  balances := fun _ => 100
  tracked := fun _ => true
  intelligence := []
  metrics :=
    { total_tweets := 5
      relevant_tweets := 2
      high_priority_tweets := 1
      avg_relevance_score := 4/5
      avg_credibility_score := 7/10 }
  last_refinement := none

/-! # Lemmas about the billing ledger -/

/-- Case analysis of `record_grok_call`: a successful call is covered
by the affordability floor and debits exactly the per-call cost; a
failed call leaves the state untouched. -/
lemma record_grok_call_spec (s : BillingState) (ct : CallType) :
    ((record_grok_call s ct).1.success = true ∧
       ¬s.balance < GROK_COST_PER_CALL + TWITTER_API_DAILY_FEE ∧
       (record_grok_call s ct).2.balance = s.balance - GROK_COST_PER_CALL) ∨
    ((record_grok_call s ct).1.success = false ∧ (record_grok_call s ct).2 = s) := by
  unfold record_grok_call can_afford_grok_call
  by_cases h : s.balance < GROK_COST_PER_CALL + TWITTER_API_DAILY_FEE
  · simp [h]
  · cases hu : s.usage with
    | none => simp [h, hu]
    | some u => simp [h, hu]

/-- Case analysis of `check_and_charge_daily_fee`: a successful charge
is covered by the fee floor and debits exactly the fee; anything else
leaves the state untouched. -/
lemma check_and_charge_daily_fee_spec (now : ℤ) (ok : Bool) (s : BillingState) :
    ((check_and_charge_daily_fee now ok s).1.charged = true ∧
       ¬s.balance < TWITTER_API_DAILY_FEE ∧
       (check_and_charge_daily_fee now ok s).2.balance =
         s.balance - TWITTER_API_DAILY_FEE) ∨
    ((check_and_charge_daily_fee now ok s).1.charged = false ∧
       (check_and_charge_daily_fee now ok s).2 = s) := by
  unfold check_and_charge_daily_fee
  cases hu : s.usage with
  | none => simp
  | some u =>
      by_cases h1 : now - u.last_billing_cycle < 86400
      · simp [h1]
      · by_cases h2 : s.balance < TWITTER_API_DAILY_FEE
        · simp [h1, h2]
        · cases ok <;> simp [h1, h2]

/-- Case analysis of one charge attempt: success debits exactly
`chargeCost` and the cost was covered; failure changes nothing. -/
lemma applyChargeOp_spec (s : BillingState) (op : ChargeOp) :
    ((applyChargeOp s op).2 = true ∧ chargeCost op ≤ s.balance ∧
       (applyChargeOp s op).1.balance = s.balance - chargeCost op) ∨
    ((applyChargeOp s op).2 = false ∧ (applyChargeOp s op).1 = s) := by
  cases op with
  | grokCall ct =>
      rcases record_grok_call_spec s ct with ⟨h1, h2, h3⟩ | ⟨h1, h2⟩
      · left
        refine ⟨h1, ?_, h3⟩
        simp only [chargeCost, GROK_COST_PER_CALL, TWITTER_API_DAILY_FEE] at h2 ⊢
        push_neg at h2
        linarith
      · right; exact ⟨h1, h2⟩
  | dailyFee now ok =>
      rcases check_and_charge_daily_fee_spec now ok s with ⟨h1, h2, h3⟩ | ⟨h1, h2⟩
      · left
        refine ⟨h1, ?_, h3⟩
        simp only [chargeCost, TWITTER_API_DAILY_FEE] at h2 ⊢
        push_neg at h2
        exact h2
      · right; exact ⟨h1, h2⟩

/-- Unfolding equation of `runCharges` on a cons cell. -/
lemma runCharges_cons (s : BillingState) (op : ChargeOp) (ops : List ChargeOp) :
    runCharges s (op :: ops) =
      ((runCharges (applyChargeOp s op).1 ops).1,
       (if (applyChargeOp s op).2 then chargeCost op else 0) +
         (runCharges (applyChargeOp s op).1 ops).2) := rfl

/-- Unfolding equation of `countSuccessfulCharges` on a cons cell. -/
lemma countSuccessfulCharges_cons (s : BillingState) (op : ChargeOp) (ops : List ChargeOp) :
    countSuccessfulCharges s (op :: ops) =
      match op with
      | .grokCall _ =>
          ((if (applyChargeOp s op).2 then 1 else 0) +
             (countSuccessfulCharges (applyChargeOp s op).1 ops).1,
           (countSuccessfulCharges (applyChargeOp s op).1 ops).2)
      | .dailyFee _ _ =>
          ((countSuccessfulCharges (applyChargeOp s op).1 ops).1,
           (if (applyChargeOp s op).2 then 1 else 0) +
             (countSuccessfulCharges (applyChargeOp s op).1 ops).2) := by
  cases op <;> rfl

/-- Accounting invariant of a run of charge attempts: the final balance
is the initial balance minus the successfully debited total, that total
is the successful-charge counts weighted by their costs, and a
nonnegative balance stays nonnegative. -/
lemma runCharges_spec (ops : List ChargeOp) : ∀ s : BillingState, 0 ≤ s.balance →
    (runCharges s ops).1.balance = s.balance - (runCharges s ops).2 ∧
    0 ≤ (runCharges s ops).1.balance ∧
    (runCharges s ops).2 =
      ((countSuccessfulCharges s ops).1 : ℚ) * GROK_COST_PER_CALL +
        ((countSuccessfulCharges s ops).2 : ℚ) * TWITTER_API_DAILY_FEE := by
  induction ops with
  | nil =>
      intro s h
      refine ⟨by simp [runCharges], by simpa [runCharges] using h, ?_⟩
      simp [runCharges, countSuccessfulCharges]
  | cons op ops ih =>
      intro s h
      rcases applyChargeOp_spec s op with ⟨hok, hcov, hbal⟩ | ⟨hok, hst⟩
      · have h0' : 0 ≤ (applyChargeOp s op).1.balance := by rw [hbal]; linarith
        obtain ⟨ih1, ih2, ih3⟩ := ih (applyChargeOp s op).1 h0'
        have hcost : 0 ≤ chargeCost op := by
          cases op <;>
            simp only [chargeCost, GROK_COST_PER_CALL, TWITTER_API_DAILY_FEE] <;>
            norm_num
        refine ⟨?_, ih2, ?_⟩
        · rw [runCharges_cons, hok]
          simp only [if_true]
          rw [ih1, hbal]
          ring
        · rw [runCharges_cons, countSuccessfulCharges_cons, hok]
          cases op with
          | grokCall ct =>
              simp only [if_true]
              rw [ih3]
              push_cast
              simp only [chargeCost]
              ring
          | dailyFee now tok =>
              simp only [if_true]
              rw [ih3]
              push_cast
              simp only [chargeCost]
              ring
      · obtain ⟨ih1, ih2, ih3⟩ := ih (applyChargeOp s op).1 (by rw [hst]; exact h)
        refine ⟨?_, ih2, ?_⟩
        · rw [runCharges_cons, hok]
          simp only [Bool.false_eq_true, if_false]
          rw [ih1, hst]
          ring
        · rw [runCharges_cons, countSuccessfulCharges_cons, hok]
          cases op with
          | grokCall ct =>
              simp only [Bool.false_eq_true, if_false]
              rw [ih3]
              push_cast
              ring
          | dailyFee now tok =>
              simp only [Bool.false_eq_true, if_false]
              rw [ih3]
              push_cast
              ring

/-! # Claim C1 -/

/-- C1.  No ledger operation leaves a subscriber's balance negative:
from any starting balance ≥ 0, both `record_grok_call` and
`check_and_charge_daily_fee` return with the balance still ≥ 0, and
over any sequence of charge attempts the number of successful per-call
charges times the per-call cost plus the number of successful daily-fee
charges times the daily fee never exceeds the initial balance (for a
single-kind sequence, this is the claim's count × cost bound). -/
theorem billing_no_overdraft_C1 (s : BillingState) (h : 0 ≤ s.balance) :
    (∀ ct, 0 ≤ (record_grok_call s ct).2.balance) ∧
    (∀ now ok, 0 ≤ (check_and_charge_daily_fee now ok s).2.balance) ∧
    (∀ ops : List ChargeOp,
       0 ≤ (runCharges s ops).1.balance ∧
       ((countSuccessfulCharges s ops).1 : ℚ) * GROK_COST_PER_CALL +
         ((countSuccessfulCharges s ops).2 : ℚ) * TWITTER_API_DAILY_FEE ≤ s.balance) := by
  refine ⟨?_, ?_, ?_⟩
  · intro ct
    rcases record_grok_call_spec s ct with ⟨_, h2, h3⟩ | ⟨_, h2⟩
    · rw [h3]
      simp only [GROK_COST_PER_CALL, TWITTER_API_DAILY_FEE] at h2
      push_neg at h2
      simp only [GROK_COST_PER_CALL]
      linarith
    · rw [h2]; exact h
  · intro now ok
    rcases check_and_charge_daily_fee_spec now ok s with ⟨_, h2, h3⟩ | ⟨_, h2⟩
    · rw [h3]
      simp only [TWITTER_API_DAILY_FEE] at h2 ⊢
      push_neg at h2
      linarith
    · rw [h2]; exact h
  · intro ops
    obtain ⟨h1, h2, h3⟩ := runCharges_spec ops s h
    refine ⟨h2, ?_⟩
    rw [← h3]
    have := h1 ▸ h2
    linarith

/-- Witness for C1 at balance $5.00 with usage tracking present (the
spec's own scenario), applying the theorem after a single per-call
charge attempt. -/
theorem billing_no_overdraft_C1_witness :
    (0 : ℚ) ≤ (BillingState.mk 5 (some placeholderUsage)).balance ∧
    0 ≤ (record_grok_call (BillingState.mk 5 (some placeholderUsage)) .analyzeTweet).2.balance ∧
    ((countSuccessfulCharges (BillingState.mk 5 (some placeholderUsage))
        [ChargeOp.grokCall .analyzeTweet] ).1 : ℚ) * GROK_COST_PER_CALL +
      ((countSuccessfulCharges (BillingState.mk 5 (some placeholderUsage))
        [ChargeOp.grokCall .analyzeTweet] ).2 : ℚ) * TWITTER_API_DAILY_FEE ≤ 5 :=
  ⟨by norm_num,
   (billing_no_overdraft_C1 (BillingState.mk 5 (some placeholderUsage)) (by norm_num)).1
      .analyzeTweet,
   (billing_no_overdraft_C1 (BillingState.mk 5 (some placeholderUsage)) (by norm_num)).2.2
      [ChargeOp.grokCall .analyzeTweet] |>.2⟩

/-! # Claim C5 -/

/-- C5.  `check_and_charge_daily_fee` is a no-op unless 24 hours have
elapsed since `last_billing_cycle`; when due with balance below the fee
it signals `should_stop` and performs no debit; when due, affordable
and the transfer succeeds it debits exactly the flat fee, advances
`last_billing_cycle` to now, and attaches the two-tier warning with
exclusive thresholds — in particular balance $4.50 yields new balance
$2.50 with a critical warning, and balance $12.00 yields new balance
$10.00 with no warning. -/
theorem daily_fee_contract_C5 :
    (∀ (s : BillingState) (u : EventUsage) (now : ℤ) (ok : Bool),
       s.usage = some u → now - u.last_billing_cycle < 86400 →
       (check_and_charge_daily_fee now ok s).1.charged = false ∧
       (check_and_charge_daily_fee now ok s).2 = s) ∧
    (∀ (s : BillingState) (u : EventUsage) (now : ℤ) (ok : Bool),
       s.usage = some u → ¬now - u.last_billing_cycle < 86400 →
       s.balance < TWITTER_API_DAILY_FEE →
       (check_and_charge_daily_fee now ok s).1.should_stop = true ∧
       (check_and_charge_daily_fee now ok s).1.charged = false ∧
       (check_and_charge_daily_fee now ok s).2 = s) ∧
    (∀ (s : BillingState) (u : EventUsage) (now : ℤ),
       s.usage = some u → ¬now - u.last_billing_cycle < 86400 →
       ¬s.balance < TWITTER_API_DAILY_FEE →
       (check_and_charge_daily_fee now true s).1.charged = true ∧
       (check_and_charge_daily_fee now true s).1.amount = TWITTER_API_DAILY_FEE ∧
       (check_and_charge_daily_fee now true s).2.balance =
         s.balance - TWITTER_API_DAILY_FEE ∧
       (check_and_charge_daily_fee now true s).2.usage.map (·.last_billing_cycle) =
         some now ∧
       (check_and_charge_daily_fee now true s).1.warning =
         (if s.balance - TWITTER_API_DAILY_FEE < 5 then some Warn.critical
          else if s.balance - TWITTER_API_DAILY_FEE < 10 then some Warn.notice
          else none)) ∧
    ((check_and_charge_daily_fee 86400 true
        (BillingState.mk (9/2) (some placeholderUsage))).1.new_balance = some (5/2) ∧
     (check_and_charge_daily_fee 86400 true
        (BillingState.mk (9/2) (some placeholderUsage))).1.warning = some Warn.critical) ∧
    ((check_and_charge_daily_fee 86400 true
        (BillingState.mk 12 (some placeholderUsage))).1.new_balance = some 10 ∧
     (check_and_charge_daily_fee 86400 true
        (BillingState.mk 12 (some placeholderUsage))).1.warning = none) := by
  refine ⟨?_, ?_, ?_, by decide, by decide⟩
  · intro s u now ok hu hlt
    unfold check_and_charge_daily_fee
    rw [hu]
    simp [hlt]
  · intro s u now ok hu hlt hbal
    unfold check_and_charge_daily_fee
    rw [hu]
    simp [hlt, hbal]
  · intro s u now hu hlt hbal
    unfold check_and_charge_daily_fee
    rw [hu]
    simp [hlt, hbal]

/-- Witness for C5: the due-and-insufficient clause at balance $1.50,
25 hours after the last cycle. -/
theorem daily_fee_contract_C5_witness :
    (BillingState.mk (3/2) (some placeholderUsage)).usage = some placeholderUsage ∧
    ¬(90000 : ℤ) - placeholderUsage.last_billing_cycle < 86400 ∧
    (BillingState.mk (3/2) (some placeholderUsage)).balance < TWITTER_API_DAILY_FEE ∧
    (check_and_charge_daily_fee 90000 true
       (BillingState.mk (3/2) (some placeholderUsage))).1.should_stop = true :=
  ⟨rfl, by decide, by decide,
   (daily_fee_contract_C5.2.1 (BillingState.mk (3/2) (some placeholderUsage))
      placeholderUsage 90000 true rfl (by decide) (by decide)).1⟩

/-! # Claim C6 -/

/-- C6 counterexample.  The claim says a funds-transfer failure during
a daily-fee charge "does not trigger the insolvency stop-and-remove
path applied to the subscriber".  At a concrete input where the fee is
due and the balance ($10) is ample but the transfer backend fails, the
result sets `should_stop` and `_daily_fee_scheduler`'s dispatch takes
`notifyAndRemove` — exactly the action taken for the genuinely
insolvent subscriber (balance $1.50). -/
theorem daily_fee_transfer_error_C6_counterexample :
    (check_and_charge_daily_fee 90000 false
       (BillingState.mk 10 (some placeholderUsage))).1.should_stop = true ∧
    daily_fee_dispatch (check_and_charge_daily_fee 90000 false
       (BillingState.mk 10 (some placeholderUsage))).1 = FeeAction.notifyAndRemove ∧
    daily_fee_dispatch (check_and_charge_daily_fee 90000 false
       (BillingState.mk (3/2) (some placeholderUsage))).1 = FeeAction.notifyAndRemove := by
  decide

/-- C6 amended.  A transfer-backend failure during a due, affordable
daily-fee charge produces a result distinguishable from the
insufficient-balance outcome (message "Transfer failed" rather than
"Insufficient balance", no debit, no signature), but it nevertheless
sets `should_stop` and is dispatched by `_daily_fee_scheduler` to the
same notify-and-remove path as insolvency; it is not retried or
surfaced separately. -/
theorem daily_fee_transfer_error_C6 (s : BillingState) (u : EventUsage) (now : ℤ)
    (hu : s.usage = some u) (hdue : ¬now - u.last_billing_cycle < 86400)
    (hbal : ¬s.balance < TWITTER_API_DAILY_FEE) :
    (check_and_charge_daily_fee now false s).1.msg = DailyMsg.transferFailed ∧
    (check_and_charge_daily_fee now false s).1.msg ≠ DailyMsg.insufficientBalance ∧
    (check_and_charge_daily_fee now false s).1.charged = false ∧
    (check_and_charge_daily_fee now false s).2 = s ∧
    (check_and_charge_daily_fee now false s).1.should_stop = true ∧
    daily_fee_dispatch (check_and_charge_daily_fee now false s).1 =
      FeeAction.notifyAndRemove := by
  unfold check_and_charge_daily_fee
  rw [hu]
  simp [hdue, hbal, daily_fee_dispatch]

/-- Witness for C6 at balance $10, 25 hours after the last cycle, with
a failing transfer backend. -/
theorem daily_fee_transfer_error_C6_witness :
    (BillingState.mk 10 (some placeholderUsage)).usage = some placeholderUsage ∧
    ¬(90000 : ℤ) - placeholderUsage.last_billing_cycle < 86400 ∧
    ¬(BillingState.mk 10 (some placeholderUsage)).balance < TWITTER_API_DAILY_FEE ∧
    (check_and_charge_daily_fee 90000 false
       (BillingState.mk 10 (some placeholderUsage))).1.msg = DailyMsg.transferFailed :=
  ⟨rfl, by decide, by decide,
   (daily_fee_transfer_error_C6 (BillingState.mk 10 (some placeholderUsage))
      placeholderUsage 90000 rfl (by decide) (by decide)).1⟩

/-! # Claim C4 -/

/-- C4.  `_should_skip_tweet` implements the spec's ordered heuristics
with first match winning — it agrees with the rule-list evaluation
`shouldSkipSpec` on every tweet, including the intentional asymmetry
of the zero-engagement rule — and a post from an automated source with
50,000 followers is skipped regardless of engagement. -/
theorem prefilter_order_C4 :
    (∀ t : Tweet, _should_skip_tweet t = shouldSkipSpec t) ∧
    (∀ t : Tweet, t.author.isAutomated = true → t.author.followers = 50000 →
       _should_skip_tweet t = true) := by
  constructor
  · intro t
    simp only [_should_skip_tweet, shouldSkipSpec, firstMatch, specRuleAutomated,
      specRuleLowFollowers, specRuleZeroEngagement, specRuleReshare, specRuleReply]
    split_ifs <;> rfl
  · intro t h1 _
    simp [_should_skip_tweet, h1]

/-- Witness for C4 at the automated 50,000-follower scenario input. -/
theorem prefilter_order_C4_witness :
    _should_skip_tweet autoTweet50k = shouldSkipSpec autoTweet50k ∧
    autoTweet50k.author.isAutomated = true ∧
    autoTweet50k.author.followers = 50000 ∧
    _should_skip_tweet autoTweet50k = true :=
  ⟨prefilter_order_C4.1 autoTweet50k, rfl, rfl,
   prefilter_order_C4.2 autoTweet50k rfl rfl⟩

/-! # Lemmas about the response-parsing pipeline -/

/-- A list is a prefix of itself followed by anything. -/
lemma isPrefixOf_append_self : ∀ (p l : Str), p.isPrefixOf (p ++ l) = true := by
  intro p
  induction p with
  | nil => intro l; simp [List.isPrefixOf]
  | cons a p ih => intro l; simp [List.isPrefixOf, ih l]

/-- The fence marker is not a prefix of a list starting with a
non-backtick character. -/
lemma fence_not_prefix_of_cons (c : Char) (l : Str) (hc : c ≠ btick) :
    fenceMark.isPrefixOf (c :: l) = false := by
  simp only [fenceMark, List.isPrefixOf, Bool.and_eq_false_imp]
  simp [beq_eq_false_iff_ne, Ne.symm hc]

/-- Scanning up to the first fence marker recovers exactly a
backtick-free body it was appended to. -/
lemma takeUntilSub_append_fence : ∀ l : Str, btick ∉ l →
    takeUntilSub fenceMark (l ++ fenceMark) = l := by
  intro l
  induction l with
  | nil => intro _; decide
  | cons c l ih =>
      intro h
      have hc : c ≠ btick := by
        intro hh; exact h (by simp [hh])
      have hl : btick ∉ l := fun hh => h (List.mem_cons_of_mem _ hh)
      simp only [List.cons_append, takeUntilSub]
      rw [fence_not_prefix_of_cons c _ hc]
      simp [ih hl]

/-- The unwrapping step leaves a backtick-free raw response alone. -/
lemma stripFence_of_no_btick (body : Str) (hb : btick ∉ body) :
    stripFence body = body := by
  unfold stripFence
  cases body with
  | nil => rfl
  | cons c l =>
      have hc : c ≠ btick := by intro hh; exact hb (by simp [hh])
      rw [fence_not_prefix_of_cons c l hc]
      simp

/-- `str.strip()` absorbs a leading whitespace character. -/
lemma pyStrip_cons_ws (c : Char) (l : Str) (hc : c.isWhitespace = true) :
    pyStrip (c :: l) = pyStrip l := by
  simp [pyStrip, List.dropWhile_cons, hc]

/-- `str.strip()` absorbs a trailing newline. -/
lemma pyStrip_append_nl : ∀ l : Str, pyStrip (l ++ ('\n' :: [])) = pyStrip l := by
  intro l
  induction l with
  | nil => decide
  | cons c l ih =>
      by_cases hw : c.isWhitespace = true
      · rw [List.cons_append, pyStrip_cons_ws c _ hw, pyStrip_cons_ws c _ hw, ih]
      · have hw' : c.isWhitespace = false := by simpa using hw
        have hnl : ('\n').isWhitespace = true := by decide
        simp only [pyStrip, List.cons_append, List.dropWhile_cons, hw',
          Bool.false_eq_true, if_false, List.reverse_cons, List.reverse_append]
        simp [List.append_assoc, List.dropWhile_cons, hnl]

/-- Unwrapping a fenced, `json`-tagged wrapper around a backtick-free
body and parsing gives exactly the parse of the stripped body. -/
lemma parseGrok_wrapFenced {α : Type} (jp : Str → Option α) (body : Str)
    (hb : btick ∉ body) : parseGrok jp (wrapFenced body) = jp (pyStrip body) := by
  have hinner : btick ∉ jsonTag ++ (('\n' :: body) ++ ('\n' :: [])) := by
    intro h
    rcases List.mem_append.1 h with h | h
    · revert h; decide
    · rcases List.mem_append.1 h with h | h
      · rcases List.mem_cons.1 h with h | h
        · revert h; decide
        · exact hb h
      · revert h; decide
  have hwrap : wrapFenced body =
      fenceMark ++ ((jsonTag ++ (('\n' :: body) ++ ('\n' :: []))) ++ fenceMark) := by
    simp [wrapFenced, List.append_assoc]
  unfold parseGrok
  rw [hwrap]
  unfold stripFence
  rw [isPrefixOf_append_self]
  simp only [if_true]
  have hdrop3 :
      (fenceMark ++
        ((jsonTag ++ (('\n' :: body) ++ ('\n' :: []))) ++ fenceMark)).drop 3 =
      (jsonTag ++ (('\n' :: body) ++ ('\n' :: []))) ++ fenceMark := rfl
  rw [hdrop3, takeUntilSub_append_fence _ hinner, isPrefixOf_append_self]
  simp only [if_true]
  have hdrop4 : (jsonTag ++ (('\n' :: body) ++ ('\n' :: []))).drop 4 =
      ('\n' :: body) ++ ('\n' :: []) := rfl
  rw [hdrop4]
  have hsplit : ('\n' :: body) ++ ('\n' :: []) = '\n' :: (body ++ ('\n' :: [])) := rfl
  rw [hsplit, pyStrip_cons_ws _ _ (by decide), pyStrip_append_nl]

/-! # Claim C7 -/

/-- C7 counterexample.  The claim says a JSON-parse failure "returns
null for every task (including refinement)"; but `refine_ruleset`
returns the **current** ruleset on a parse failure, never null: with a
JSON parser that fails on every input and the concrete response
"garbage", the refinement task hands back the current ruleset. -/
theorem grok_parse_contract_C7_counterexample :
    refine_ruleset_result (fun _ => none) rulesetC7
        (some ('g' :: 'a' :: 'r' :: 'b' :: 'a' :: 'g' :: 'e' :: [])) = some rulesetC7 ∧
    refine_ruleset_result (fun _ => none) rulesetC7
        (some ('g' :: 'a' :: 'r' :: 'b' :: 'a' :: 'g' :: 'e' :: [])) ≠ none := by
  decide

/-- C7 amended.  All four Reasoning Client tasks share the fenced-code
unwrap: a response wrapped in a ```json fence (body without backticks)
parses identically to the raw body, and a JSON-parse failure is a soft
failure that never propagates an exception — but the failure value is
task-specific: classification and plan generation return null, digest
synthesis performs no JSON parsing at all, and refinement returns the
current ruleset unchanged (not null). -/
theorem grok_parse_contract_C7 :
    (∀ (jp : Str → Option Analysis) (body : Str), btick ∉ body → body ≠ [] →
       analyze_tweet_result jp (some (wrapFenced body)) =
         analyze_tweet_result jp (some body)) ∧
    (∀ (jp : Str → Option Analysis) (r : Str), parseGrok jp r = none →
       analyze_tweet_result jp (some r) = none) ∧
    (∀ (jp : Str → Option Ruleset) (r : Str), parseGrok jp r = none →
       generate_initial_ruleset_result jp (some r) = none) ∧
    (∀ (jp : Str → Option Ruleset) (cur : Ruleset) (r : Str), parseGrok jp r = none →
       refine_ruleset_result jp cur (some r) = some cur) ∧
    (∀ r : Option Str, synthesize_digest_result r = r) := by
  refine ⟨?_, ?_, ?_, ?_, fun _ => rfl⟩
  · intro jp body hb hne
    have hwne : (wrapFenced body).isEmpty = false := rfl
    have hbne : body.isEmpty = false := by
      cases body with
      | nil => exact absurd rfl hne
      | cons c l => rfl
    simp only [analyze_tweet_result, hwne, hbne, Bool.false_eq_true, if_false]
    rw [parseGrok_wrapFenced jp body hb]
    unfold parseGrok
    rw [stripFence_of_no_btick body hb]
  · intro jp r hp
    simp only [analyze_tweet_result]
    by_cases he : r.isEmpty <;> simp [he, hp]
  · intro jp r hp
    simp only [generate_initial_ruleset_result]
    by_cases he : r.isEmpty <;> simp [he, hp]
  · intro jp cur r hp
    simp only [refine_ruleset_result]
    by_cases he : r.isEmpty <;> simp [he, hp]

/-- Witness for C7: the wrap-equivalence clause at the backtick-free
body "null" with a parser failing on every input, and the refinement
soft-failure clause at the response "garbage". -/
theorem grok_parse_contract_C7_witness :
    btick ∉ ('n' :: 'u' :: 'l' :: 'l' :: []) ∧
    ('n' :: 'u' :: 'l' :: 'l' :: []) ≠ ([] : Str) ∧
    analyze_tweet_result (fun _ => (none : Option Analysis))
        (some (wrapFenced ('n' :: 'u' :: 'l' :: 'l' :: []))) =
      analyze_tweet_result (fun _ => none) (some ('n' :: 'u' :: 'l' :: 'l' :: [])) ∧
    refine_ruleset_result (fun _ => none) rulesetC7
        (some ('x' :: [])) = some rulesetC7 :=
  ⟨by decide, by decide,
   grok_parse_contract_C7.1 (fun _ => none) ('n' :: 'u' :: 'l' :: 'l' :: [])
     (by decide) (by decide),
   grok_parse_contract_C7.2.2.2.1 (fun _ => none) rulesetC7 ('x' :: []) rfl⟩

/-! # Claim C9 -/

/-- C9 counterexample.  The claim says feed-source deregistration is
attempted exactly once per monitored account when stop is called
twice; but `stop_agent` never removes the agent from `self.agents`,
so the second call repeats `remove_multiple_users_from_monitor`: two
calls produce two deregistration attempts for the same account list
(and two stream-rule deletions), not one. -/
theorem stop_idempotent_C9_counterexample :
    (stop_agent_twice stopStateC9).2.deregCalls = 2 ∧
    (stop_agent stopStateC9).2.deregCalls = 1 ∧
    (stop_agent_twice stopStateC9).2.deleteStreamCalls = 2 := by
  decide

/-- C9 amended.  Calling stop twice produces the same end state as
calling it once, and the scheduled loops are cancelled exactly once
(the second call cancels nothing, because the tasks were deleted from
their dictionaries) — but feed-source deregistration and stream-rule
deletion are re-attempted by every call: for a present agent with
accounts and a live client, two calls make two deregistration
attempts, not one. -/
theorem stop_idempotent_C9 (s : StopState) :
    (stop_agent (stop_agent s).1).1 = (stop_agent s).1 ∧
    (stop_agent (stop_agent s).1).2.cancels = 0 ∧
    (s.agentPresent = true → s.accounts ≠ [] → s.twitterClientSome = true →
       (stop_agent_twice s).2.deregCalls = 2 ∧
       (stop_agent_twice s).2.deleteStreamCalls = 2) := by
  by_cases hp : s.agentPresent = true
  · refine ⟨?_, ?_, ?_⟩
    · simp [stop_agent, hp]
    · simp [stop_agent, hp]
    · intro _ ha hc
      unfold stop_agent_twice stop_agent StopEffects.add
      simp [hp, ha, hc]
  · have hp' : s.agentPresent = false := by simpa using hp
    refine ⟨?_, ?_, ?_⟩
    · simp [stop_agent, hp']
    · simp [stop_agent, hp']
    · intro h; exact absurd h (by simp [hp'])

/-- Witness for C9 at the concrete running monitor. -/
theorem stop_idempotent_C9_witness :
    (stop_agent (stop_agent stopStateC9).1).1 = (stop_agent stopStateC9).1 ∧
    stopStateC9.agentPresent = true ∧
    stopStateC9.accounts ≠ [] ∧
    stopStateC9.twitterClientSome = true ∧
    (stop_agent_twice stopStateC9).2.deregCalls = 2 :=
  ⟨(stop_idempotent_C9 stopStateC9).1, rfl, by decide, rfl,
   ((stop_idempotent_C9 stopStateC9).2.2 rfl (by decide) rfl).1⟩


/-! # Lemmas about the billing gate and the ingestion state machine -/

/-- Charging one tracked subscriber above the affordability floor
succeeds and debits exactly the per-call cost from their balance. -/
lemma chargeSub_ok (s : MonitorState) (u : ℤ) (ct : CallType)
    (ht : s.tracked u = true)
    (ha : ¬s.balances u < GROK_COST_PER_CALL + TWITTER_API_DAILY_FEE) :
    chargeSub s.balances s.tracked u ct =
      (fun v => if v = u then s.balances u - GROK_COST_PER_CALL else s.balances v,
       true) := by
  unfold chargeSub record_grok_call can_afford_grok_call
  simp [ht, ha]

/-- When every subscriber in the iterated list is tracked and above the
affordability floor, the billing gate succeeds: no error, each listed
subscriber debited once, the charge effects appended in order, and
nothing else in the monitor state touched. -/
lemma gateLoop_all_ok (ct : CallType) :
    ∀ (l : List ℤ) (s : MonitorState) (eff : Effects),
      (∀ u ∈ l, s.tracked u = true ∧
        ¬s.balances u < GROK_COST_PER_CALL + TWITTER_API_DAILY_FEE) →
      l.Nodup →
      gateLoop ct l s eff =
        ({ s with balances := fun v =>
            if v ∈ l then s.balances v - GROK_COST_PER_CALL else s.balances v },
         { eff with charges := eff.charges ++ l.map (fun u => (u, ct)) },
         none) := by
  intro l
  induction l with
  | nil =>
      intro s eff _ _
      have hb : (fun v => if v ∈ ([] : List ℤ) then
          s.balances v - GROK_COST_PER_CALL else s.balances v) = s.balances := by
        funext v; simp
      simp [gateLoop, hb]
  | cons u l ih =>
      intro s eff haff hnd
      have hu := haff u (List.mem_cons_self u l)
      have hul : u ∉ l := (List.nodup_cons.1 hnd).1
      have hndl : l.Nodup := (List.nodup_cons.1 hnd).2
      simp only [gateLoop]
      rw [chargeSub_ok s u ct hu.1 hu.2]
      simp only [if_true]
      have hstep := ih { s with balances := fun v =>
          if v = u then s.balances u - GROK_COST_PER_CALL else s.balances v }
        { eff with charges := eff.charges ++ [(u, ct)] }
        (by
          intro v hv
          have hne : v ≠ u := fun h => hul (h ▸ hv)
          have := haff v (List.mem_cons_of_mem u hv)
          simpa [hne] using this)
        hndl
      rw [hstep]
      have hbal : (fun v => if v ∈ l then
            (if v = u then s.balances u - GROK_COST_PER_CALL else s.balances v) -
              GROK_COST_PER_CALL
          else if v = u then s.balances u - GROK_COST_PER_CALL else s.balances v) =
          (fun v => if v ∈ u :: l then s.balances v - GROK_COST_PER_CALL
            else s.balances v) := by
        funext v
        by_cases hv : v = u
        · subst hv
          simp [hul]
        · by_cases hvl : v ∈ l <;> simp [hv, hvl]
      have hch : (eff.charges ++ [(u, ct)]) ++ l.map (fun u => (u, ct)) =
          eff.charges ++ (u :: l).map (fun u => (u, ct)) := by
        simp
      refine congrArg₂ Prod.mk ?_ (congrArg₂ Prod.mk ?_ rfl)
      · show ({ s with balances := _ } : MonitorState) = { s with balances := _ }
        rw [hbal]
      · show ({ eff with charges := _ } : Effects) = { eff with charges := _ }
        rw [hch]

/-- The priority path with a successful classification: the gate
passes, the analysis is forced to priority "high", the item is stored
and delivered immediately. -/
lemma handleTweetActive_priority_some (s : MonitorState) (t : Tweet) (a : Analysis)
    (a2 : Option Analysis)
    (hprio : (_check_priority_node t s.ruleset.priority_nodes).1 = true)
    (hsub : s.subscribers ≠ []) (hnd : s.subscribers.Nodup)
    (haff : ∀ u ∈ s.subscribers, s.tracked u = true ∧
      ¬s.balances u < GROK_COST_PER_CALL + TWITTER_API_DAILY_FEE) :
    handleTweetActive (some a) a2 s t =
      ({ s with
          balances := fun v => if v ∈ s.subscribers then
            s.balances v - GROK_COST_PER_CALL else s.balances v
          intelligence := s.intelligence ++
            [{ tweet := t
               analysis := { a with priority := ('h' :: 'i' :: 'g' :: 'h' :: []) }
               is_priority_node := true
               priority_node_reason :=
                 some (_check_priority_node t s.ruleset.priority_nodes).2 }]
          metrics := { s.metrics with
            high_priority_tweets := s.metrics.high_priority_tweets + 1 } },
       { grokCalls := 1
         charges := s.subscribers.map (fun u => (u, CallType.analyzeTweetPriority))
         notified := []
         delivered := 1 },
       .priorityDelivered) := by
  unfold handleTweetActive
  rw [hprio, gateLoop_all_ok .analyzeTweetPriority s.subscribers s Effects.init haff hnd]
  simp [hsub, Effects.init]

/-- The non-priority tail under a passing pre-filter and a passing
gate: one more Grok call, each subscriber charged once for
`analyze_tweet`, nobody notified — in every classification branch. -/
lemma handleNormalPath_all (a2 : Option Analysis) (t : Tweet) (s : MonitorState)
    (eff : Effects)
    (hskip : _should_skip_tweet t = false)
    (hsub : s.subscribers ≠ []) (hnd : s.subscribers.Nodup)
    (haff : ∀ u ∈ s.subscribers, s.tracked u = true ∧
      ¬s.balances u < GROK_COST_PER_CALL + TWITTER_API_DAILY_FEE) :
    (handleNormalPath a2 t s eff).2.1.charges =
      eff.charges ++ s.subscribers.map (fun u => (u, CallType.analyzeTweet)) ∧
    (handleNormalPath a2 t s eff).2.1.grokCalls = eff.grokCalls + 1 ∧
    (handleNormalPath a2 t s eff).2.1.notified = eff.notified := by
  unfold handleNormalPath
  rw [hskip]
  rw [gateLoop_all_ok .analyzeTweet s.subscribers s eff haff hnd]
  simp only [Bool.false_eq_true, if_false]
  simp only [hsub, if_neg]
  rcases a2 with _ | a
  · exact ⟨rfl, rfl, rfl⟩
  · by_cases h1 : a.relevant
    · by_cases h2 : a.relevance_score < s.ruleset.relevance_threshold
      · simp [h1, h2]
      · by_cases h3 : a.credibility_score < s.ruleset.credibility_threshold
        · simp [h1, h2, h3]
        · simp [h1, h2, h3]
    · simp [h1]

/-- The priority path with a failed classification: after the gate and
the first Grok call, execution falls through into the non-priority
path, carrying the already-charged balances and effects. -/
lemma handleTweetActive_priority_none (s : MonitorState) (t : Tweet)
    (a2 : Option Analysis)
    (hprio : (_check_priority_node t s.ruleset.priority_nodes).1 = true)
    (hsub : s.subscribers ≠ []) (hnd : s.subscribers.Nodup)
    (haff : ∀ u ∈ s.subscribers, s.tracked u = true ∧
      ¬s.balances u < GROK_COST_PER_CALL + TWITTER_API_DAILY_FEE) :
    handleTweetActive none a2 s t =
      handleNormalPath a2 t
        { s with balances := fun v => if v ∈ s.subscribers then
            s.balances v - GROK_COST_PER_CALL else s.balances v }
        { grokCalls := 1
          charges := s.subscribers.map (fun u => (u, CallType.analyzeTweetPriority))
          notified := []
          delivered := 0 } := by
  unfold handleTweetActive
  rw [hprio, gateLoop_all_ok .analyzeTweetPriority s.subscribers s Effects.init haff hnd]
  simp [hsub, Effects.init]

/-- Filtering a list by non-membership in itself yields nothing. -/
lemma filter_not_mem_self (l : List Str) :
    l.filter (fun a => ¬a ∈ l) = [] := by
  rw [List.filter_eq_nil_iff]
  intro a ha
  simp [ha]

/-! # Claim C2 -/

/-- C2.  The claim says every subscriber failing the billing gate is
notified and removed and that "the removal itself completes without
raising an error for any subscriber list".  Evaluating the embedded
`_handle_tweet` at an active monitor with subscribers `[1, 2]`, both
tracked and holding $1.50 (below the $2.01 floor), and a
pre-filter-passing tweet: the first failing subscriber is notified and
removed, then the `await` of the `bool` returned by the synchronous
`remove_subscriber` raises `TypeError`, processing aborts, and
subscriber 2 is neither notified nor removed (the subsequent
`subscribers.discard` — an `AttributeError` on the declared
`List[int]` — is never reached). -/
theorem gate_removal_crash_C2 :
    (handle_tweet none none monitorC2 tweetC2).2.2 =
      HandleOutcome.gateError PyErr.typeErrorAwaitBool ∧
    (handle_tweet none none monitorC2 tweetC2).2.1.notified = [1] ∧
    (handle_tweet none none monitorC2 tweetC2).1.subscribers = [2] := by
  decide

/-! # Claim C3 -/

/-- C3 counterexample.  The claim says a post matching a priority node
"is never discarded by the relevance_threshold / credibility_threshold
filters".  At a concrete input the tweet matches the ruleset's
priority node, the priority-path classification fails (`none`),
processing falls through to the non-priority path, and the fallback
classification (relevance 0.5 against threshold 0.7) is discarded by
the relevance threshold. -/
theorem priority_bypass_C3_counterexample :
    (_check_priority_node tweetC3 monitorC3.ruleset.priority_nodes).1 = true ∧
    (handle_tweet none (some analysisC3) monitorC3 tweetC3).2.2 =
      HandleOutcome.relevanceTooLow := by
  decide

/-- C3 amended.  A post matching a priority node whose priority-path
classification returns an analysis always yields a stored Intelligence
Item with priority forced to "high" and is never discarded by the
relevance/credibility thresholds (outcome `priorityDelivered`); the
bypass holds only when the priority-path classification succeeds — on
a failed classification the post falls through to the non-priority
path where the thresholds apply. -/
theorem priority_bypass_C3 (s : MonitorState) (t : Tweet) (a : Analysis)
    (a2 : Option Analysis)
    (hact : s.status = .active)
    (hprio : (_check_priority_node t s.ruleset.priority_nodes).1 = true)
    (hsub : s.subscribers ≠ []) (hnd : s.subscribers.Nodup)
    (haff : ∀ u ∈ s.subscribers, s.tracked u = true ∧
      ¬s.balances u < GROK_COST_PER_CALL + TWITTER_API_DAILY_FEE) :
    (handle_tweet (some a) a2 s t).2.2 = .priorityDelivered ∧
    (handle_tweet (some a) a2 s t).1.intelligence =
      s.intelligence ++
        [{ tweet := t
           analysis := { a with priority := ('h' :: 'i' :: 'g' :: 'h' :: []) }
           is_priority_node := true
           priority_node_reason :=
             some (_check_priority_node t s.ruleset.priority_nodes).2 }] := by
  unfold handle_tweet
  rw [if_pos hact]
  rw [handleTweetActive_priority_some
      { s with metrics := { s.metrics with total_tweets := s.metrics.total_tweets + 1 } }
      t a a2 hprio hsub hnd haff]
  exact ⟨rfl, rfl⟩

/-- Witness for C3 at the concrete priority-matching input with a
successful classification. -/
theorem priority_bypass_C3_witness :
    monitorC3.status = .active ∧
    (_check_priority_node tweetC3 monitorC3.ruleset.priority_nodes).1 = true ∧
    monitorC3.subscribers ≠ [] ∧
    monitorC3.subscribers.Nodup ∧
    (handle_tweet (some analysisC3) none monitorC3 tweetC3).2.2 =
      HandleOutcome.priorityDelivered :=
  ⟨rfl, by decide, by decide, by decide,
   (priority_bypass_C3 monitorC3 tweetC3 analysisC3 none rfl (by decide) (by decide)
      (by decide) (by decide)).1⟩

/-! # Claim C10 -/

/-- C10.  When a post matches a priority node but the priority-path
classification fails, processing does not end: the post falls through
into the non-priority path, the pre-filter runs, and — if it passes
and every subscriber still clears the gate — every subscriber is
charged a second classify-call fee and the Reasoning Client is invoked
a second time for the same post (two Grok calls, and the charge log
holds one priority charge plus one normal charge per subscriber). -/
theorem priority_fallthrough_C10 (s : MonitorState) (t : Tweet)
    (a2 : Option Analysis)
    (hact : s.status = .active)
    (hprio : (_check_priority_node t s.ruleset.priority_nodes).1 = true)
    (hskip : _should_skip_tweet t = false)
    (hsub : s.subscribers ≠ []) (hnd : s.subscribers.Nodup)
    (haff : ∀ u ∈ s.subscribers, s.tracked u = true ∧
      ¬s.balances u <
        GROK_COST_PER_CALL + GROK_COST_PER_CALL + TWITTER_API_DAILY_FEE) :
    (handle_tweet none a2 s t).2.1.grokCalls = 2 ∧
    (handle_tweet none a2 s t).2.1.charges =
      s.subscribers.map (fun u => (u, CallType.analyzeTweetPriority)) ++
        s.subscribers.map (fun u => (u, CallType.analyzeTweet)) ∧
    (handle_tweet none a2 s t).2.1.notified = [] := by
  have haff1 : ∀ u ∈ s.subscribers, s.tracked u = true ∧
      ¬s.balances u < GROK_COST_PER_CALL + TWITTER_API_DAILY_FEE := by
    intro u hu
    refine ⟨(haff u hu).1, ?_⟩
    have h := (haff u hu).2
    simp only [GROK_COST_PER_CALL, TWITTER_API_DAILY_FEE] at h ⊢
    push_neg at h ⊢
    linarith
  unfold handle_tweet
  rw [if_pos hact]
  rw [handleTweetActive_priority_none
      { s with metrics := { s.metrics with total_tweets := s.metrics.total_tweets + 1 } }
      t a2 hprio hsub hnd haff1]
  have haffN : ∀ u ∈ s.subscribers, s.tracked u = true ∧
      ¬(if u ∈ s.subscribers then s.balances u - GROK_COST_PER_CALL
        else s.balances u) < GROK_COST_PER_CALL + TWITTER_API_DAILY_FEE := by
    intro u hu
    refine ⟨(haff u hu).1, ?_⟩
    rw [if_pos hu]
    have h := (haff u hu).2
    simp only [GROK_COST_PER_CALL, TWITTER_API_DAILY_FEE] at h ⊢
    push_neg at h ⊢
    linarith
  obtain ⟨h1, h2, h3⟩ := handleNormalPath_all a2 t
    { { s with metrics := { s.metrics with total_tweets := s.metrics.total_tweets + 1 } } with
        balances := fun v => if v ∈ s.subscribers then
          s.balances v - GROK_COST_PER_CALL else s.balances v }
    { grokCalls := 1
      charges := s.subscribers.map (fun u => (u, CallType.analyzeTweetPriority))
      notified := []
      delivered := 0 }
    hskip hsub hnd haffN
  exact ⟨h2, h1, h3⟩

/-- Witness for C10 at the concrete priority-matching input with a
failed priority classification. -/
theorem priority_fallthrough_C10_witness :
    monitorC3.status = .active ∧
    (_check_priority_node tweetC3 monitorC3.ruleset.priority_nodes).1 = true ∧
    _should_skip_tweet tweetC3 = false ∧
    (handle_tweet none none monitorC3 tweetC3).2.1.grokCalls = 2 ∧
    (handle_tweet none none monitorC3 tweetC3).2.1.charges =
      monitorC3.subscribers.map (fun u => (u, CallType.analyzeTweetPriority)) ++
        monitorC3.subscribers.map (fun u => (u, CallType.analyzeTweet)) :=
  ⟨rfl, by decide, by decide,
   (priority_fallthrough_C10 monitorC3 tweetC3 none rfl (by decide) (by decide)
      (by decide) (by decide) (by decide)).1,
   (priority_fallthrough_C10 monitorC3 tweetC3 none rfl (by decide) (by decide)
      (by decide) (by decide) (by decide)).2.1⟩

/-! # Claim C8 -/

/-- C8 counterexample.  The claim says the refinement cycle resets the
rolling metrics and records `last_refinement` only when refinement
succeeds.  At a concrete input where the Reasoning Client fails
(`response = none`, so `refine_ruleset` hands back the current ruleset
— a failure by the claim's own definition), `_refine_rules`
nevertheless resets the metrics from their accumulated values to the
initial metrics and records `last_refinement`. -/
theorem refine_failure_C8_counterexample :
    refine_ruleset_result (fun _ => none) monitorC8.ruleset none =
      some monitorC8.ruleset ∧
    monitorC8.metrics ≠ _init_metrics ∧
    (refine_rules 42 (fun _ => none) none monitorC8).1.metrics = _init_metrics ∧
    monitorC8.last_refinement = none ∧
    (refine_rules 42 (fun _ => none) none monitorC8).1.last_refinement = some 42 := by
  decide

/-- C8 amended.  When the billing gate passes and the refinement fails
(the engine returns the current ruleset, which the monitor's
`if refined_ruleset:` guard cannot distinguish from success), the
prior Ruleset is indeed retained unchanged with no partial apply and
no feed-source registration churn — but the rolling metrics are reset
and `last_refinement` is recorded anyway; the cycle records them on
every gate-passing run, success or failure. -/
theorem refine_failure_C8 (s : MonitorState) (now : ℤ)
    (jp : Str → Option Ruleset) (response : Option Str)
    (hsub : s.subscribers ≠ []) (hnd : s.subscribers.Nodup)
    (haff : ∀ u ∈ s.subscribers, s.tracked u = true ∧
      ¬s.balances u < GROK_COST_PER_CALL + TWITTER_API_DAILY_FEE)
    (hfail : refine_ruleset_result jp s.ruleset response = some s.ruleset) :
    (refine_rules now jp response s).1.ruleset = s.ruleset ∧
    (refine_rules now jp response s).1.metrics = _init_metrics ∧
    (refine_rules now jp response s).1.last_refinement = some now ∧
    (refine_rules now jp response s).2.1.deregistered = [] ∧
    (refine_rules now jp response s).2.1.registered = [] ∧
    (refine_rules now jp response s).2.2 = RefineOutcome.applied := by
  unfold refine_rules
  rw [gateLoop_all_ok .refineRuleset s.subscribers s Effects.init haff hnd]
  simp only [hsub, if_neg]
  set f : ℤ → ℚ := fun v =>
    if v ∈ s.subscribers then s.balances v - GROK_COST_PER_CALL else s.balances v with hf
  have hfail2 :
      refine_ruleset_result jp ({ s with balances := f } : MonitorState).ruleset response =
        some s.ruleset := hfail
  rw [hfail2]
  simp [filter_not_mem_self]

/-- Witness for C8 at the concrete monitor with a failed (engine
`None`) refinement. -/
theorem refine_failure_C8_witness :
    monitorC8.subscribers ≠ [] ∧
    refine_ruleset_result (fun _ => none) monitorC8.ruleset none =
      some monitorC8.ruleset ∧
    (refine_rules 42 (fun _ => none) none monitorC8).1.ruleset = monitorC8.ruleset ∧
    (refine_rules 42 (fun _ => none) none monitorC8).1.metrics = _init_metrics :=
  ⟨by decide, rfl,
   (refine_failure_C8 monitorC8 42 (fun _ => none) none (by decide) (by decide)
      (by decide) rfl).1,
   (refine_failure_C8 monitorC8 42 (fun _ => none) none (by decide) (by decide)
      (by decide) rfl).2.1⟩


end Polydictions
